import Mathlib

/-!
# Verification of the `own-your-mood` emotion-inference core

A shallow embedding of `src/emotion_detector.py` (class `EmotionDetector`),
the on-device speech-emotion inference pipeline, together with proofs of the
behavioural properties claimed by the specification.

Modelling conventions:
* 16-bit PCM samples are `Int`; float32 sample values and confidence scores
  are `ℚ` (every arithmetic operation the code performs on them — division by
  the power of two 32768, multiplication by a 0/1 mask, comparison — is exact
  in float32, so the rational model is bit-faithful).
* A Python dict result is a `ResultDict` of optional fields, so that the set
  of keys actually present in the dict is observable (`ResultDict.fields`).
* The filesystem input is a `FileContent`: the path is missing, the file is
  unreadable/not a valid WAV (`wave.open`/`readframes` raises), or it decodes
  to a list of int16 samples.
* The TFLite interpreter is a function `List ℚ → Option (List ℚ)` from the
  input tensor to the output probability vector; `none` models a runtime
  exception raised during `set_tensor`/`invoke`/`get_tensor`.
* A Python exception inside the `try:` block is `none` in `Option`; the
  blanket `except Exception` of `analyze_audio` is `Option.getD` against the
  fallback result.
* `time.time()` is an explicit parameter `now : ℚ` of the call.
-/

namespace OwnYourMood

/-- Presentation metadata attached to an emotion label
(`EmotionDetector.EMOTIONS` values). -/
structure EmotionMeta where
  color : String
  emoji : String
  icon : String
deriving DecidableEq

/-- `EmotionDetector.EMOTIONS`: the static UI mapping from label to
color/emoji/icon (source lines 40-47). -/
def EMOTIONS : List (String × EmotionMeta) :=
  [ ("neutral", ⟨"#9E9E9E", "😐", "sentiment_neutral"⟩),
    ("happy",   ⟨"#4CAF50", "😊", "sentiment_satisfied"⟩),
    ("sad",     ⟨"#2196F3", "😢", "sentiment_dissatisfied"⟩),
    ("angry",   ⟨"#F44336", "😠", "sentiment_very_dissatisfied"⟩),
    ("fearful", ⟨"#9C27B0", "😨", "psychology_alt"⟩),
    ("disgust", ⟨"#795548", "🤢", "sick"⟩) ]

/-- `EmotionDetector.MODEL_CLASSES` (source line 50): model output order. -/
def MODEL_CLASSES : List String :=
  ["neutral", "happy", "sad", "angry", "fearful", "disgust"]

/-- `EmotionDetector.INTENSITY_LEVELS` (source line 52). -/
def INTENSITY_LEVELS : List String := ["low", "medium", "high"]

/-- `self.EMOTIONS.get(key, self.EMOTIONS['neutral'])` (source line 149):
metadata lookup with the neutral entry as default. -/
def emotionsGet (key : String) : EmotionMeta :=
  (EMOTIONS.lookup key).getD ⟨"#9E9E9E", "😐", "sentiment_neutral"⟩

/-- A Python result dict, with one optional slot per key that any branch of
`analyze_audio` can emit.  `none` means the key is absent from the dict. -/
structure ResultDict where
  emotion : Option String
  intensity : Option String
  color : Option String
  emoji : Option String
  icon : Option String
  timestamp : Option ℚ
  confidence : Option ℚ
  error : Option String
deriving DecidableEq

/-- The list of keys actually present in the dict, in the insertion order the
source uses. -/
def ResultDict.fields (r : ResultDict) : List String :=
  (if r.emotion.isSome then ["emotion"] else []) ++
  (if r.intensity.isSome then ["intensity"] else []) ++
  (if r.color.isSome then ["color"] else []) ++
  (if r.emoji.isSome then ["emoji"] else []) ++
  (if r.icon.isSome then ["icon"] else []) ++
  (if r.timestamp.isSome then ["timestamp"] else []) ++
  (if r.confidence.isSome then ["confidence"] else []) ++
  (if r.error.isSome then ["error"] else [])

/-- The dict with its `timestamp` key removed, used to compare two results
up to the wall-clock time recorded at call time. -/
def ResultDict.exceptTimestamp (r : ResultDict) : ResultDict :=
  { r with timestamp := none }

/-- What the decoding stage finds at the input path. -/
inductive FileContent where
  /-- `Path(audio_file_path).exists()` is false. -/
  | missing : FileContent
  /-- The file exists but `wave.open`/`readframes` raises (unreadable or not
  valid PCM WAV). -/
  | corrupt : FileContent
  /-- The file decodes to these int16 samples. -/
  | wav (samples : List Int) : FileContent
deriving DecidableEq

/-- `audio_int16.astype(np.float32) / 32768.0` (source line 97): int16 PCM to
unit-range float.  Division by the power of two 32768 is exact in float32. -/
def pcmToFloat (samples : List Int) : List ℚ :=
  samples.map (fun s : Int => (s : ℚ) / 32768)

/-- `np.max(np.abs(xs))` (source lines 101 and 114) for nonempty `xs`; on the
empty array `np.max` raises, which the caller models separately. -/
def peakAmp (xs : List ℚ) : ℚ :=
  (xs.map (fun x => |x|)).foldr max 0

/-- The noise gate (source lines 109-110): `mask = np.abs(x) > t`;
`x * mask`.  Samples strictly above the threshold in absolute value are kept
exactly; all others become 0.0 (multiplication by the 0/1 mask is exact). -/
def noiseGate (xs : List ℚ) (t : ℚ) : List ℚ :=
  xs.map (fun x => if |x| > t then x else 0)

/-- Pad/trim to the fixed model input length (source lines 124-129):
truncate to the first `L` samples when longer, zero-pad the tail otherwise. -/
def padTrim (xs : List ℚ) (L : ℕ) : List ℚ :=
  if xs.length > L then xs.take L
  else xs ++ List.replicate (L - xs.length) 0

/-- `np.argmax` over a probability vector: index of the first maximum; `none`
on the empty array (where `np.argmax` raises). -/
def argmaxFrom : List ℚ → ℕ → ℕ → ℚ → ℕ
  | [], _, bi, _ => bi
  | x :: rest, i, bi, bv =>
      if x > bv then argmaxFrom rest (i + 1) i x
      else argmaxFrom rest (i + 1) bi bv

/-- First-occurrence argmax of a vector, `none` when empty. -/
def argmax : List ℚ → Option ℕ
  | [] => none
  | x :: rest => some (argmaxFrom rest 1 0 x)

/-- Intensity tier from confidence (source lines 144-146):
`> 0.85 → high`, `elif > 0.55 → medium`, `else low`. -/
def intensityOf (c : ℚ) : String :=
  if c > 85 / 100 then "high"
  else if c > 55 / 100 then "medium"
  else "low"

/-- The success-path result dict (source lines 158-166). -/
def successResult (key : String) (conf : ℚ) (now : ℚ) : ResultDict :=
  { emotion := some key
    intensity := some (intensityOf conf)
    color := some (emotionsGet key).color
    emoji := some (emotionsGet key).emoji
    icon := some (emotionsGet key).icon
    timestamp := some now
    confidence := some conf
    error := none }

/-- `EmotionDetector._get_fallback_result` (source lines 179-188): the
generic degraded result.  Note: no `confidence` key, and the distinct `❓` /
`help` glyphs. -/
def getFallbackResult (now : ℚ) : ResultDict :=
  { emotion := some "neutral"
    intensity := some "low"
    color := some "#9E9E9E"
    emoji := some "❓"
    icon := some "help"
    timestamp := some now
    confidence := none
    error := none }

/-- The file-missing result (source line 86):
`{'emotion': 'neutral', 'intensity': 'low', 'error': 'File not found'}`. -/
def fileNotFoundResult : ResultDict :=
  { emotion := some "neutral"
    intensity := some "low"
    color := none
    emoji := none
    icon := none
    timestamp := none
    confidence := none
    error := some "File not found" }

/-- The body of the `try:` block of `analyze_audio` (source lines 92-166),
for an already-decoded sample list.  `none` is a raised exception:
* `np.max` on an empty array raises `ValueError`;
* the silence branch (source line 120) calls `self._build_result`, a method
  that is defined nowhere in the class, so it raises `AttributeError`;
* a failing interpreter call raises;
* `np.argmax` on an empty output raises;
* `self.MODEL_CLASSES[max_index]` raises `IndexError` when the model emits
  more classes than the list has. -/
def analyzeBody (run : List ℚ → Option (List ℚ)) (samples : List Int)
    (now : ℚ) : Option ResultDict :=
  let audio_float := pcmToFloat samples
  if audio_float.isEmpty then none
  else
    let max_amp := peakAmp audio_float
    let gate_threshold := max_amp * (30 / 100)
    let audio_gated := noiseGate audio_float gate_threshold
    let max_amp2 := peakAmp audio_gated
    if max_amp2 < 1 / 10 then
      none
    else
      let conditioned := padTrim audio_gated 48000
      match run conditioned with
      | none => none
      | some output_data =>
        match argmax output_data with
        | none => none
        | some max_index =>
          let conf := output_data.getD max_index 0
          match MODEL_CLASSES.get? max_index with
          | none => none
          | some emotion_key => some (successResult emotion_key conf now)

/-- `EmotionDetector.analyze_audio` (source lines 81-170).  `interp` is
`self.interpreter` (`none` when the model failed to load); `now` is the value
`time.time()` returns during this call. -/
def analyze_audio (interp : Option (List ℚ → Option (List ℚ)))
    (file : FileContent) (now : ℚ) : ResultDict :=
  match file, interp with
  | .missing, _ => fileNotFoundResult
  | _, none => getFallbackResult now
  | .corrupt, some _ => getFallbackResult now
  | .wav samples, some run => (analyzeBody run samples now).getD (getFallbackResult now)

/-! ## Helper lemmas -/

/-- The intensity decoder only ever emits the three configured tiers. -/
lemma intensityOf_mem_levels (c : ℚ) : intensityOf c ∈ INTENSITY_LEVELS := by
  unfold intensityOf INTENSITY_LEVELS
  split
  · simp
  · split <;> simp

/-- Zeroes stay zeroes through every stage of the conditioner: peak amplitude
of an all-zero signal is 0. -/
lemma peakAmp_replicate_zero (n : ℕ) : peakAmp (List.replicate n (0 : ℚ)) = 0 := by
  unfold peakAmp
  rw [List.map_replicate, abs_zero]
  induction n with
  | zero => simp
  | succ m ih => rw [List.replicate_succ, List.foldr_cons, ih]; simp

/-- The noise gate maps an all-zero signal to itself. -/
lemma noiseGate_replicate_zero (n : ℕ) (t : ℚ) :
    noiseGate (List.replicate n (0 : ℚ)) t = List.replicate n (0 : ℚ) := by
  unfold noiseGate
  rw [List.map_replicate]
  congr 1
  split <;> rfl

/-- PCM decoding of all-zero int16 samples is the all-zero float signal. -/
lemma pcmToFloat_replicate_zero (n : ℕ) :
    pcmToFloat (List.replicate n (0 : Int)) = List.replicate n (0 : ℚ) := by
  unfold pcmToFloat
  rw [List.map_replicate]
  congr 1
  norm_num

/-! ## C3: missing file path -/

/-- C3: for every model state and call time, `analyze_audio` on a path that
does not resolve to an existing file returns, without decoding or inference
(the result is the same constant dict for every interpreter), the well-formed
neutral/low result carrying the explicit error marker
`'error': 'File not found'`, and it does not raise. -/
theorem analyze_audio_missing_file (interp : Option (List ℚ → Option (List ℚ)))
    (now : ℚ) :
    analyze_audio interp .missing now = fileNotFoundResult ∧
    fileNotFoundResult.error = some "File not found" ∧
    fileNotFoundResult.emotion = some "neutral" ∧
    fileNotFoundResult.intensity = some "low" := by
  refine ⟨?_, rfl, rfl, rfl⟩
  cases interp <;> rfl

/-! ## C5: intensity tiers -/

/-- C5: the decoded intensity tier is `"high"` exactly when the argmax
confidence is strictly greater than 0.85, `"medium"` exactly when it is at
most 0.85 and strictly greater than 0.55, and `"low"` otherwise; in
particular confidence 0.86 yields `"high"` and confidence exactly 0.55
yields `"low"`. -/
theorem intensityOf_tiers (c : ℚ) :
    (intensityOf c = "high" ↔ 85 / 100 < c) ∧
    (intensityOf c = "medium" ↔ c ≤ 85 / 100 ∧ 55 / 100 < c) ∧
    (intensityOf c = "low" ↔ c ≤ 55 / 100) ∧
    intensityOf (86 / 100) = "high" ∧
    intensityOf (55 / 100) = "low" := by
  have hb1 : intensityOf (86 / 100) = "high" := by
    unfold intensityOf
    rw [if_pos (by norm_num : (86 : ℚ) / 100 > 85 / 100)]
  have hb2 : intensityOf (55 / 100) = "low" := by
    unfold intensityOf
    rw [if_neg (by norm_num : ¬((55 : ℚ) / 100 > 85 / 100)),
      if_neg (by norm_num : ¬((55 : ℚ) / 100 > 55 / 100))]
  refine ⟨?_, ?_, ?_, hb1, hb2⟩
  · constructor
    · intro h
      by_contra hc
      unfold intensityOf at h
      rw [if_neg hc] at h
      split at h
      · exact absurd h (by decide)
      · exact absurd h (by decide)
    · intro h1
      unfold intensityOf
      rw [if_pos h1]
  · constructor
    · intro h
      unfold intensityOf at h
      by_cases h1 : (85 : ℚ) / 100 < c
      · rw [if_pos h1] at h
        exact absurd h (by decide)
      · rw [if_neg h1] at h
        by_cases h2 : (55 : ℚ) / 100 < c
        · exact ⟨not_lt.mp h1, h2⟩
        · rw [if_neg h2] at h
          exact absurd h (by decide)
    · rintro ⟨hle, h2⟩
      unfold intensityOf
      rw [if_neg (not_lt.mpr hle), if_pos h2]
  · constructor
    · intro h
      unfold intensityOf at h
      by_cases h2 : (55 : ℚ) / 100 < c
      · by_cases h1 : (85 : ℚ) / 100 < c
        · rw [if_pos h1] at h
          exact absurd h (by decide)
        · rw [if_neg h1, if_pos h2] at h
          exact absurd h (by decide)
      · exact not_lt.mp h2
    · intro hle
      unfold intensityOf
      rw [if_neg (not_lt.mpr (hle.trans (by norm_num))), if_neg (not_lt.mpr hle)]

/-- Evaluation helper: decoding the int16 signal `[10000, 3000]`. -/
lemma pcmToFloat_pair_example :
    pcmToFloat [10000, 3000] = [10000 / 32768, 3000 / 32768] := by
  norm_num [pcmToFloat]

/-- Evaluation helper: `|10000/32768| = 10000/32768`. -/
lemma abs_pair_example_fst : |(10000 : ℚ) / 32768| = 10000 / 32768 :=
  abs_of_pos (by norm_num)

/-- Evaluation helper: `|3000/32768| = 3000/32768`. -/
lemma abs_pair_example_snd : |(3000 : ℚ) / 32768| = 3000 / 32768 :=
  abs_of_pos (by norm_num)

/-- Evaluation helper: the peak amplitude of the decoded `[10000, 3000]`
signal is its first sample. -/
lemma peakAmp_pair_example :
    peakAmp (pcmToFloat [10000, 3000]) = 10000 / 32768 := by
  rw [pcmToFloat_pair_example]
  simp only [peakAmp, List.map_cons, List.map_nil, List.foldr_cons,
    List.foldr_nil, abs_pair_example_fst, abs_pair_example_snd]
  norm_num [max_def]

/-! ## C6: noise gate -/

/-- C6 counterexample: the claim "every sample whose absolute value is below
the threshold is set to 0.0, and every other sample is left exactly
unchanged" fails at a sample lying exactly at the gate threshold.  For the
int16 signal `[10000, 3000]`, the threshold is `0.30 * 10000/32768 =
3000/32768`; the second sample is not below the threshold, is nonzero, yet
the gate zeroes it (the mask keeps only `|x| > threshold`). -/
theorem noiseGate_not_id_at_threshold :
    ¬ ((3000 : ℚ) / 32768 <
        peakAmp (pcmToFloat [10000, 3000]) * (30 / 100)) ∧
    (3000 : ℚ) / 32768 ≠ 0 ∧
    noiseGate (pcmToFloat [10000, 3000])
        (peakAmp (pcmToFloat [10000, 3000]) * (30 / 100))
      = [10000 / 32768, 0] := by
  refine ⟨?_, by norm_num, ?_⟩
  · rw [peakAmp_pair_example]
    norm_num
  · rw [peakAmp_pair_example, pcmToFloat_pair_example]
    simp only [noiseGate, List.map_cons, List.map_nil, abs_pair_example_fst,
      abs_pair_example_snd]
    norm_num

/-- C6 amended: with the gate threshold equal to 0.30 times the signal's
peak absolute amplitude, every sample whose absolute value is at most the
threshold (in particular every sample strictly below it, and any sample
exactly at it) is set to 0.0, and every sample strictly above the threshold
— in particular the dominant speaker's samples — is left exactly unchanged
by the gate. -/
theorem noiseGate_pointwise (xs : List ℚ) (i : ℕ) (x : ℚ)
    (hx : xs.get? i = some x) :
    (|x| ≤ peakAmp xs * (30 / 100) →
      (noiseGate xs (peakAmp xs * (30 / 100))).get? i = some 0) ∧
    (peakAmp xs * (30 / 100) < |x| →
      (noiseGate xs (peakAmp xs * (30 / 100))).get? i = some x) := by
  constructor
  · intro hle
    rw [noiseGate, List.get?_map, hx]
    simp [not_lt.mpr hle]
  · intro hgt
    rw [noiseGate, List.get?_map, hx]
    simp [hgt]

/-- C6 witness: the pointwise gate property instantiated on the decoded
`[10000, 3000]` signal at index 1, whose sample sits exactly at the gate
threshold and is zeroed. -/
theorem noiseGate_pointwise_witness :
    (pcmToFloat [10000, 3000]).get? 1 = some (3000 / 32768) ∧
    (noiseGate (pcmToFloat [10000, 3000])
        (peakAmp (pcmToFloat [10000, 3000]) * (30 / 100))).get? 1 = some 0 := by
  have hget : (pcmToFloat [10000, 3000]).get? 1 = some (3000 / 32768) := by
    rw [pcmToFloat_pair_example]
    rfl
  refine ⟨hget, (noiseGate_pointwise _ 1 _ hget).1 ?_⟩
  rw [abs_pair_example_snd, peakAmp_pair_example]
  norm_num

/-! ## C2: silent input (code bug) -/

/-- C2 (code bug): on an all-zero sample buffer with a loaded model, the
silence branch of `analyze_audio` (source line 120) calls
`self._build_result('neutral', 0.9, 'low')`, but no method `_build_result`
is defined anywhere in the class or repository, so the branch raises
`AttributeError`; the blanket `except` then returns the generic fallback
dict.  Hence the call does skip inference (the result is the same for every
interpreter `run`) and is neutral/low, but it carries NO confidence key at
all — not the designated silence result with a fixed confidence that the
specification describes. -/
theorem analyze_audio_silent_returns_fallback
    (run : List ℚ → Option (List ℚ)) (n : ℕ) (now : ℚ) :
    analyze_audio (some run) (.wav (List.replicate n 0)) now
      = getFallbackResult now ∧
    (getFallbackResult now).confidence = none := by
  refine ⟨?_, rfl⟩
  cases n with
  | zero => rfl
  | succ m =>
    have hb : analyzeBody run (List.replicate (m + 1) 0) now = none := by
      unfold analyzeBody
      simp only [pcmToFloat_replicate_zero]
      rw [if_neg (by simp [List.isEmpty_iff, List.replicate_succ])]
      rw [noiseGate_replicate_zero, peakAmp_replicate_zero]
      rw [if_pos (by norm_num)]
    show (analyzeBody run (List.replicate (m + 1) 0) now).getD
        (getFallbackResult now) = getFallbackResult now
    rw [hb]
    rfl

/-! ## Case analysis of the analysis pipeline -/

/-- The `try:` body either raises (maps to `none`) or produces a success
dict whose label comes from `MODEL_CLASSES`. -/
lemma analyzeBody_cases (run : List ℚ → Option (List ℚ)) (s : List Int)
    (now : ℚ) :
    analyzeBody run s now = none ∨
    ∃ k c, k ∈ MODEL_CLASSES ∧
      analyzeBody run s now = some (successResult k c now) := by
  simp only [analyzeBody]
  split
  · exact Or.inl rfl
  · split
    · exact Or.inl rfl
    · split
      · exact Or.inl rfl
      · split
        · exact Or.inl rfl
        · split
          · exact Or.inl rfl
          · rename_i heq
            exact Or.inr ⟨_, _, List.get?_mem heq, rfl⟩

/-- Every call to `analyze_audio` returns exactly one of the three result
shapes: the file-missing dict, the generic fallback dict, or a success dict
labelled from `MODEL_CLASSES`. -/
lemma analyze_audio_cases (interp : Option (List ℚ → Option (List ℚ)))
    (file : FileContent) (now : ℚ) :
    analyze_audio interp file now = fileNotFoundResult ∨
    analyze_audio interp file now = getFallbackResult now ∨
    ∃ k c, k ∈ MODEL_CLASSES ∧
      analyze_audio interp file now = successResult k c now := by
  cases file with
  | missing => cases interp <;> exact Or.inl rfl
  | corrupt => cases interp <;> exact Or.inr (Or.inl rfl)
  | wav s =>
    cases interp with
    | none => exact Or.inr (Or.inl rfl)
    | some run =>
      rcases analyzeBody_cases run s now with h | ⟨k, c, hk, h⟩
      · refine Or.inr (Or.inl ?_)
        show (analyzeBody run s now).getD (getFallbackResult now)
          = getFallbackResult now
        rw [h]
        rfl
      · refine Or.inr (Or.inr ⟨k, c, hk, ?_⟩)
        show (analyzeBody run s now).getD (getFallbackResult now)
          = successResult k c now
        rw [h]
        rfl

/-! ## C1: no exception crosses the boundary -/

/-- C1: for every input path (missing, unreadable/corrupt, or decodable) and
every model state (absent, failing, or succeeding interpreter),
`analyze_audio` is a total function into result dicts — every failure mode
of decoding, preprocessing, or inference (each modelled as an `Option`
failure inside the `try:` body) is caught and converted into a displayable
dict that always carries an emotion and an intensity.  No exception
propagates to the caller. -/
theorem analyze_audio_never_raises (interp : Option (List ℚ → Option (List ℚ)))
    (file : FileContent) (now : ℚ) :
    (analyze_audio interp file now).emotion.isSome ∧
    (analyze_audio interp file now).intensity.isSome := by
  rcases analyze_audio_cases interp file now with h | h | ⟨k, c, -, h⟩ <;>
    rw [h] <;> exact ⟨rfl, rfl⟩

/-! ## C10: emotion and intensity invariants -/

/-- C10: on every path (model loaded, absent, or failing; file missing,
corrupt, or valid) the returned dict's `emotion` value belongs to the fixed
six-label set `MODEL_CLASSES = [neutral, happy, sad, angry, fearful,
disgust]` and its `intensity` value belongs to
`INTENSITY_LEVELS = [low, medium, high]`. -/
theorem analyze_audio_label_invariant
    (interp : Option (List ℚ → Option (List ℚ))) (file : FileContent)
    (now : ℚ) :
    ∃ e i, (analyze_audio interp file now).emotion = some e ∧
      e ∈ MODEL_CLASSES ∧
      (analyze_audio interp file now).intensity = some i ∧
      i ∈ INTENSITY_LEVELS := by
  rcases analyze_audio_cases interp file now with h | h | ⟨k, c, hk, h⟩ <;> rw [h]
  · exact ⟨"neutral", "low", rfl, (by decide), rfl, (by decide)⟩
  · exact ⟨"neutral", "low", rfl, (by decide), rfl, (by decide)⟩
  · exact ⟨k, intensityOf c, rfl, hk, rfl, intensityOf_mem_levels c⟩

/-! ## C4: result shapes -/

/-- C4 counterexample: the file-missing path returns a dict whose key set is
`{emotion, intensity, error}`, not the success shape
`{emotion, intensity, color, emoji, icon, timestamp, confidence}` — so a
non-success result does NOT always have the same set of fields as a success
result. -/
theorem result_shape_not_uniform :
    (analyze_audio none .missing 0).fields
      ≠ ["emotion", "intensity", "color", "emoji", "icon", "timestamp",
         "confidence"] := by
  decide

/-- C4 amended: results come in exactly three shapes, none of which a caller
can confuse by key: the file-missing path returns `{emotion, intensity,
error}`; the model-unavailable, silence, and caught-exception paths return
the fallback shape `{emotion, intensity, color, emoji, icon, timestamp}`
(the success shape minus `confidence`); and the success path returns
`{emotion, intensity, color, emoji, icon, timestamp, confidence}`. -/
theorem result_shapes (interp : Option (List ℚ → Option (List ℚ)))
    (file : FileContent) (now : ℚ) :
    fileNotFoundResult.fields = ["emotion", "intensity", "error"] ∧
    (getFallbackResult now).fields
      = ["emotion", "intensity", "color", "emoji", "icon", "timestamp"] ∧
    ((analyze_audio interp file now).fields
        = ["emotion", "intensity", "error"] ∨
     (analyze_audio interp file now).fields
        = ["emotion", "intensity", "color", "emoji", "icon", "timestamp"] ∨
     (analyze_audio interp file now).fields
        = ["emotion", "intensity", "color", "emoji", "icon", "timestamp",
           "confidence"]) := by
  refine ⟨rfl, rfl, ?_⟩
  rcases analyze_audio_cases interp file now with h | h | ⟨k, c, -, h⟩ <;> rw [h]
  · exact Or.inl rfl
  · exact Or.inr (Or.inl rfl)
  · exact Or.inr (Or.inr rfl)

/-! ## C7: fixed-length framing -/

/-- C7: for every gated signal handed to the framing stage, the model input
has length exactly 48000 (the tensor shape `[1, 48000, 1]`): a longer signal
is truncated to exactly its first 48000 samples, and a signal of length at
most 48000 keeps all its samples as a prefix followed by an all-zero tail of
length `48000 - len`. -/
theorem padTrim_framing (xs : List ℚ) :
    (padTrim xs 48000).length = 48000 ∧
    (48000 < xs.length → padTrim xs 48000 = xs.take 48000) ∧
    (xs.length ≤ 48000 →
      (padTrim xs 48000).take xs.length = xs ∧
      (padTrim xs 48000).drop xs.length
        = List.replicate (48000 - xs.length) 0) := by
  unfold padTrim
  by_cases h : 48000 < xs.length
  · rw [if_pos h]
    refine ⟨?_, fun _ => rfl, fun hle => absurd h (not_lt.mpr hle)⟩
    rw [List.length_take]
    exact min_eq_left h.le
  · rw [if_neg h]
    refine ⟨?_, fun hgt => absurd hgt h, fun _ => ⟨?_, ?_⟩⟩
    · rw [List.length_append, List.length_replicate]
      omega
    · exact List.take_left xs _
    · exact List.drop_left xs _

/-- C7 witness: the framing property applied at a concrete over-length
signal (48001 samples truncate to the first 48000) and a concrete short
signal (`[1, 2, 3]` survives as a prefix of the framed signal). -/
theorem padTrim_framing_witness :
    (48000 < (List.replicate 48001 (1 : ℚ)).length ∧
      padTrim (List.replicate 48001 (1 : ℚ)) 48000
        = (List.replicate 48001 (1 : ℚ)).take 48000) ∧
    (([1, 2, 3] : List ℚ).length ≤ 48000 ∧
      (padTrim ([1, 2, 3] : List ℚ) 48000).take ([1, 2, 3] : List ℚ).length
        = [1, 2, 3]) := by
  constructor
  · have hlen : 48000 < (List.replicate 48001 (1 : ℚ)).length := by
      rw [List.length_replicate]
      norm_num
    exact ⟨hlen, (padTrim_framing _).2.1 hlen⟩
  · have hlen : ([1, 2, 3] : List ℚ).length ≤ 48000 := by norm_num
    exact ⟨hlen, ((padTrim_framing _).2.2 hlen).1⟩

/-! ## C8: unit range -/

/-- C8: for every valid 16-bit PCM input (each sample in the int16 range
`[-32768, 32767]`), after the division by 32768.0 and the noise gate every
sample of the conditioned signal lies in `[-1.0, 1.0]` (the gate either
keeps a converted sample exactly or replaces it with 0.0). -/
theorem conditioned_samples_in_unit_range (samples : List Int)
    (hs : ∀ s ∈ samples, -32768 ≤ s ∧ s ≤ 32767) :
    ∀ x ∈ noiseGate (pcmToFloat samples)
        (peakAmp (pcmToFloat samples) * (30 / 100)),
      -1 ≤ x ∧ x ≤ 1 := by
  intro x hx
  rw [noiseGate, List.mem_map] at hx
  obtain ⟨y, hy, hxy⟩ := hx
  rw [pcmToFloat, List.mem_map] at hy
  obtain ⟨s, hsmem, hys⟩ := hy
  obtain ⟨hlo, hhi⟩ := hs s hsmem
  subst hxy
  by_cases hgate : |y| > peakAmp (pcmToFloat samples) * (30 / 100)
  · rw [if_pos hgate]
    subst hys
    have hlo' : (-32768 : ℚ) ≤ (s : ℚ) := by exact_mod_cast hlo
    have hhi' : (s : ℚ) ≤ 32767 := by exact_mod_cast hhi
    constructor
    · linarith
    · linarith
  · rw [if_neg hgate]
    norm_num

/-- C8 witness: the unit-range property applied to a concrete int16 buffer
containing the extreme sample -32768. -/
theorem conditioned_samples_in_unit_range_witness :
    (∀ s ∈ ([10000, -32768, 3000] : List Int), -32768 ≤ s ∧ s ≤ 32767) ∧
    ∀ x ∈ noiseGate (pcmToFloat [10000, -32768, 3000])
        (peakAmp (pcmToFloat [10000, -32768, 3000]) * (30 / 100)),
      -1 ≤ x ∧ x ≤ 1 := by
  have h : ∀ s ∈ ([10000, -32768, 3000] : List Int), -32768 ≤ s ∧ s ≤ 32767 := by
    decide
  exact ⟨h, conditioned_samples_in_unit_range _ h⟩

/-! ## C9: determinism across calls -/

/-- Evaluation helper: decoding the single-sample signal `[20000]`. -/
lemma pcmToFloat_single_example : pcmToFloat [20000] = [20000 / 32768] := by
  norm_num [pcmToFloat]

/-- Evaluation helper: peak amplitude of the decoded `[20000]` signal. -/
lemma peakAmp_single_example :
    peakAmp [(20000 : ℚ) / 32768] = 20000 / 32768 := by
  simp only [peakAmp, List.map_cons, List.map_nil, List.foldr_cons,
    List.foldr_nil]
  rw [abs_of_pos (by norm_num)]
  norm_num [max_def]

/-- Evaluation helper: the gate keeps the single loud sample unchanged. -/
lemma noiseGate_single_example :
    noiseGate [(20000 : ℚ) / 32768] (20000 / 32768 * (30 / 100))
      = [20000 / 32768] := by
  simp only [noiseGate, List.map_cons, List.map_nil]
  rw [if_pos]
  rw [abs_of_pos (by norm_num)]
  norm_num

/-- Evaluation helper: on the loud single-sample input, with a model whose
output vector is `[0, 1]`, the `try:` body succeeds and classifies the clip
as `happy` with confidence 1. -/
lemma analyzeBody_success_example (now : ℚ) :
    analyzeBody (fun _ => some [0, 1]) [20000] now
      = some (successResult "happy" 1 now) := by
  simp only [analyzeBody, pcmToFloat_single_example]
  rw [if_neg (by simp)]
  rw [peakAmp_single_example, noiseGate_single_example, peakAmp_single_example]
  rw [if_neg (by norm_num)]
  rfl

/-- C9 counterexample: two calls on the same valid audio file with the same
loaded model — both running the full successful inference path — return
dicts that differ in the `timestamp` field (`time.time()` at each call), so
the two calls are NOT identical in every field. -/
theorem analyze_audio_not_identical_across_calls :
    analyze_audio (some fun _ => some [0, 1]) (.wav [20000]) 0
      ≠ analyze_audio (some fun _ => some [0, 1]) (.wav [20000]) 1 := by
  intro h
  have h0 : analyze_audio (some fun _ => some [0, 1]) (.wav [20000]) 0
      = successResult "happy" 1 0 := by
    show (analyzeBody (fun _ => some [0, 1]) [20000] 0).getD
        (getFallbackResult 0) = successResult "happy" 1 0
    rw [analyzeBody_success_example]
    rfl
  have h1 : analyze_audio (some fun _ => some [0, 1]) (.wav [20000]) 1
      = successResult "happy" 1 1 := by
    show (analyzeBody (fun _ => some [0, 1]) [20000] 1).getD
        (getFallbackResult 1) = successResult "happy" 1 1
    rw [analyzeBody_success_example]
    rfl
  rw [h0, h1] at h
  have ht := congrArg ResultDict.timestamp h
  simp only [successResult, Option.some.injEq] at ht
  norm_num at ht

/-- The `try:` body is deterministic up to the recorded call time: its
result at two call times agrees after dropping the `timestamp` field. -/
lemma analyzeBody_exceptTimestamp (run : List ℚ → Option (List ℚ))
    (s : List Int) (n₁ n₂ : ℚ) :
    (analyzeBody run s n₁).map ResultDict.exceptTimestamp
      = (analyzeBody run s n₂).map ResultDict.exceptTimestamp := by
  simp only [analyzeBody]
  by_cases h1 : (pcmToFloat s).isEmpty = true
  · rw [if_pos h1, if_pos h1]
  · rw [if_neg h1, if_neg h1]
    by_cases h2 : peakAmp (noiseGate (pcmToFloat s)
        (peakAmp (pcmToFloat s) * (30 / 100))) < 1 / 10
    · rw [if_pos h2, if_pos h2]
    · rw [if_neg h2, if_neg h2]
      split <;> try rfl
      split <;> try rfl
      split <;> rfl

/-- C9 amended: a call's result is a deterministic function of the input
file and the model — identical in every field EXCEPT `timestamp`, which
records the wall-clock time of the call (`time.time()`), so two calls agree
after dropping their timestamps.  There is no other call-time dependence and
no hidden randomness at inference time. -/
theorem analyze_audio_deterministic_except_timestamp
    (interp : Option (List ℚ → Option (List ℚ))) (file : FileContent)
    (n₁ n₂ : ℚ) :
    (analyze_audio interp file n₁).exceptTimestamp
      = (analyze_audio interp file n₂).exceptTimestamp := by
  cases file with
  | missing => cases interp <;> rfl
  | corrupt => cases interp <;> rfl
  | wav s =>
    cases interp with
    | none => rfl
    | some run =>
      have h := analyzeBody_exceptTimestamp run s n₁ n₂
      show ((analyzeBody run s n₁).getD (getFallbackResult n₁)).exceptTimestamp
        = ((analyzeBody run s n₂).getD (getFallbackResult n₂)).exceptTimestamp
      cases hb1 : analyzeBody run s n₁ with
      | none =>
        cases hb2 : analyzeBody run s n₂ with
        | none => rfl
        | some r2 =>
          rw [hb1, hb2] at h
          simp only [Option.map_none', Option.map_some'] at h
          exact Option.noConfusion h
      | some r1 =>
        cases hb2 : analyzeBody run s n₂ with
        | none =>
          rw [hb1, hb2] at h
          simp only [Option.map_none', Option.map_some'] at h
          exact Option.noConfusion h
        | some r2 =>
          rw [hb1, hb2] at h
          simp only [Option.map_some', Option.some.injEq] at h
          exact h

end OwnYourMood
